import Mathlib

/-!
Shallow embedding of `src/neopixels.ino` (a FastLED neopixel animation).

The C array `static CRGB leds[NUM_LEDS]` is modelled as a total function
`Int → CRGB`: the C code indexes `leds` with `int` expressions that can
fall outside `[0, NUM_LEDS)`, and modelling the buffer over `Int` makes
every write the code performs visible (an out-of-range write in C lands
before or after the array; here it lands at the same integer index).
Besides the buffer, the strip state records the trace the claims talk
about: the indices written (in order), the number of `FastLED.show()`
calls, and the number of `delay(...)` calls.
-/

/-- RGB triple, as FastLED's `CRGB` (one byte per channel). -/
structure CRGB where
  r : Nat
  g : Nat
  b : Nat
deriving DecidableEq, Repr

/-- FastLED HTML colour `CRGB::Red` = 0xFF0000. -/
def CRGB.Red : CRGB := ⟨255, 0, 0⟩

/-- FastLED HTML colour `CRGB::Orange` = 0xFFA500. -/
def CRGB.Orange : CRGB := ⟨255, 165, 0⟩

/-- FastLED HTML colour `CRGB::Yellow` = 0xFFFF00. -/
def CRGB.Yellow : CRGB := ⟨255, 255, 0⟩

/-- FastLED HTML colour `CRGB::Green` = 0x008000. -/
def CRGB.Green : CRGB := ⟨0, 128, 0⟩

/-- FastLED HTML colour `CRGB::Blue` = 0x0000FF. -/
def CRGB.Blue : CRGB := ⟨0, 0, 255⟩

/-- FastLED HTML colour `CRGB::Indigo` = 0x4B0082. -/
def CRGB.Indigo : CRGB := ⟨75, 0, 130⟩

/-- FastLED HTML colour `CRGB::Violet` = 0xEE82EE. -/
def CRGB.Violet : CRGB := ⟨238, 130, 238⟩

/-- FastLED HTML colour `CRGB::Black` = 0x000000 (the "off" value). -/
def CRGB.Black : CRGB := ⟨0, 0, 0⟩

/-- FastLED HTML colour `CRGB::White` = 0xFFFFFF. -/
def CRGB.White : CRGB := ⟨255, 255, 255⟩

/-- FastLED HTML colour `CRGB::Magenta` = 0xFF00FF. -/
def CRGB.Magenta : CRGB := ⟨255, 0, 255⟩

/-- FastLED HTML colour `CRGB::Cyan` = 0x00FFFF. -/
def CRGB.Cyan : CRGB := ⟨0, 255, 255⟩

/-- `#define NUM_LEDS 150`. -/
def NUM_LEDS : Int := 150

/-- `#define RAINBOW_LEN 7`. -/
def RAINBOW_LEN : Int := 7

/-- `static CRGB rainbow[RAINBOW_LEN] = { ... }`. -/
def rainbowPalette : List CRGB :=
  [CRGB.Red, CRGB.Orange, CRGB.Yellow, CRGB.Green, CRGB.Blue, CRGB.Indigo, CRGB.Violet]

/-- The strip state: the `leds` buffer (over `Int`, see the file comment)
plus the trace of written indices, `FastLED.show()` calls and `delay` calls. -/
structure Strip where
  leds : Int → CRGB
  writes : List Int
  shows : Nat
  delays : Nat

/-- `leds[i] = c;` — one buffer store, recorded in the write trace. -/
def writeLed (s : Strip) (i : Int) (c : CRGB) : Strip :=
  { s with leds := fun j => if j = i then c else s.leds j, writes := s.writes ++ [i] }

/-- `FastLED.show();` — flush the buffer to the hardware. -/
def fastledShow (s : Strip) : Strip :=
  { s with shows := s.shows + 1 }

/-- `delay(ms);` — the blocking wait (the millisecond amount does not
affect buffer state, so only the call is recorded). -/
def delayMs (s : Strip) : Strip :=
  { s with delays := s.delays + 1 }

/-- `static CRGB leds[NUM_LEDS]` is zero-initialised, i.e. all black,
and the traces start empty. -/
def initialStrip : Strip :=
  { leds := fun _ => CRGB.Black, writes := [], shows := 0, delays := 0 }

/-- The loop counter values of `for(int dot = 0; dot < top; dot++)`:
`[0, 1, ..., top-1]`, empty when `top ≤ 0`. -/
def ascIdxs (top : Int) : List Int :=
  (List.range top.toNat).map Int.ofNat

/-- The loop counter values of `for(int dot = top; dot >= 0; dot--)`:
`[top, top-1, ..., 0]`, empty when `top < 0`. -/
def descIdxs (top : Int) : List Int :=
  ((List.range (top + 1).toNat).map Int.ofNat).reverse

/-- One iteration of the single-dot loop body:
`leds[dot] = fg; FastLED.show(); leds[dot] = bg; delay(delay_ms);`. -/
def dotStep (fg bg : CRGB) (s : Strip) (dot : Int) : Strip :=
  delayMs (writeLed (fastledShow (writeLed s dot fg)) dot bg)

/-- Run the single-dot body over the given loop counter values. -/
def runDot (fg bg : CRGB) (idxs : List Int) (s : Strip) : Strip :=
  idxs.foldl (dotStep fg bg) s

/-- One iteration of the paired-dot loop body:
`leds[half+dot] = fg; leds[half-dot] = fg; FastLED.show();
leds[half+dot] = bg; leds[half-dot] = bg; delay(delay_ms);`. -/
def pairStep (h : Int) (fg bg : CRGB) (s : Strip) (dot : Int) : Strip :=
  delayMs (writeLed (writeLed (fastledShow
    (writeLed (writeLed s (h + dot) fg) (h - dot) fg)) (h + dot) bg) (h - dot) bg)

/-- Run the paired-dot body over the given loop counter values. -/
def runPair (h : Int) (fg bg : CRGB) (idxs : List Int) (s : Strip) : Strip :=
  idxs.foldl (pairStep h fg bg) s

/-- `int half = (int)(top * 0.5);` — the product `top * 0.5` is exact in
double precision for the magnitudes in play, and the cast to `int`
truncates toward zero, which is exactly `Int.tdiv top 2`. -/
def halfOf (top : Int) : Int := Int.tdiv top 2

/-- `dotBottomToTop(top, fg, bg, delay_ms)` (lines 49–56). -/
def dotBottomToTop (top : Int) (fg bg : CRGB) (s : Strip) : Strip :=
  runDot fg bg (ascIdxs top) s

/-- `dotTopToBottom(top, fg, bg, delay_ms)` (lines 66–73); note the loop
runs from `top` down to `0` inclusive. -/
def dotTopToBottom (top : Int) (fg bg : CRGB) (s : Strip) : Strip :=
  runDot fg bg (descIdxs top) s

/-- `dotMiddleOut(top, fg, bg, delay_ms)` (lines 83–93). -/
def dotMiddleOut (top : Int) (fg bg : CRGB) (s : Strip) : Strip :=
  runPair (halfOf top) fg bg (ascIdxs (halfOf top)) s

/-- `dotOutsideIn(top, fg, bg, delay_ms)` (lines 103–113); note the loop
runs from `half` down to `0` inclusive. -/
def dotOutsideIn (top : Int) (fg bg : CRGB) (s : Strip) : Strip :=
  runPair (halfOf top) fg bg (descIdxs (halfOf top)) s

/-- `fillBottomToTop(top, bar_colour, delay_ms)` (lines 122–124). -/
def fillBottomToTop (top : Int) (c : CRGB) (s : Strip) : Strip :=
  dotBottomToTop top c c s

/-- `fillTopToBottom(top, bar_colour, delay_ms)` (lines 133–135). -/
def fillTopToBottom (top : Int) (c : CRGB) (s : Strip) : Strip :=
  dotTopToBottom top c c s

/-- `fillMiddleOut(top, bar_colour, delay_ms)` (lines 160–162). -/
def fillMiddleOut (top : Int) (c : CRGB) (s : Strip) : Strip :=
  dotMiddleOut top c c s

/-- `fillOutsideIn(top, bar_colour, delay_ms)` (lines 171–173). -/
def fillOutsideIn (top : Int) (c : CRGB) (s : Strip) : Strip :=
  dotOutsideIn top c c s

/-- `equaliser(top, top_colour, bar_colour, delay_ms)` (lines 147–151). -/
def equaliser (top : Int) (top_colour bar_colour : CRGB) (s : Strip) : Strip :=
  fillTopToBottom (top - 2) CRGB.Black (writeLed (fillBottomToTop top bar_colour s) (top - 1) top_colour)

/-- The ordered pairs `(half+dot, half-dot)` that `dotMiddleOut(top, ...)`
touches, in loop order. -/
def middleOutPairs (top : Int) : List (Int × Int) :=
  (ascIdxs (halfOf top)).map (fun d => (halfOf top + d, halfOf top - d))

/-- The ordered pairs `(half+dot, half-dot)` that `dotOutsideIn(top, ...)`
touches, in loop order. -/
def outsideInPairs (top : Int) : List (Int × Int) :=
  (descIdxs (halfOf top)).map (fun d => (halfOf top + d, halfOf top - d))

/-- The indices written by `dotMiddleOut(top, ...)`, in order (each pair
is written twice per iteration: foreground then background). -/
def middleOutWrites (top : Int) : List Int :=
  (ascIdxs (halfOf top)).flatMap
    (fun d => [halfOf top + d, halfOf top - d, halfOf top + d, halfOf top - d])

/-- `int third = (int)(NUM_LEDS * 0.33333);` = `(int)49.9995` = 49 (line 202). -/
def third : Nat := 49

/-- One iteration of the warm-up triplet loop body (lines 203–209):
`leds[dot*3] = Cyan; leds[dot*3+1] = Cyan; leds[dot*3+2] = Black;
FastLED.show(); delay(60);`. -/
def warmStep (s : Strip) (d : Nat) : Strip :=
  delayMs (fastledShow (writeLed (writeLed (writeLed s
    (3 * (d : Int)) CRGB.Cyan) (3 * (d : Int) + 1) CRGB.Cyan) (3 * (d : Int) + 2) CRGB.Black))

/-- The warm-up triplet loop, `for(int dot = 0; dot < third; dot++)`. -/
def warmupLoop (n : Nat) (s : Strip) : Strip :=
  (List.range n).foldl warmStep s

/-- One iteration of the chase inner body (lines 213–215) at phase `c`:
`leds[dot*3 + c] = Cyan; leds[dot*3 + c - 1] = Cyan;
leds[dot*3 + c - 1] = Black;`. -/
def chaseStep (c : Int) (s : Strip) (d : Nat) : Strip :=
  writeLed (writeLed (writeLed s
    (3 * (d : Int) + c) CRGB.Cyan) (3 * (d : Int) + c - 1) CRGB.Cyan) (3 * (d : Int) + c - 1) CRGB.Black

/-- The chase inner loop `for(int dot = 0; dot < third; dot++)` run over
`n` counter values at phase `c`. -/
def chaseInner (c : Int) (n : Nat) (s : Strip) : Strip :=
  (List.range n).foldl (chaseStep c) s

/-- One outer chase iteration (lines 211–219) at counter value `count`:
the inner loop over `third` groups at phase `count % 3` (for the
nonnegative counters the C `%` agrees with `Int.emod`), then one
`FastLED.show()` and one `delay(100)`. -/
def chaseIter (count : Int) (s : Strip) : Strip :=
  delayMs (fastledShow (chaseInner (Int.emod count 3) third s))

/-- The outer chase loop `for(int count = 0; count < n; count++)`;
the source runs it with `n = 100`. -/
def chaseLoopN (n : Nat) (s : Strip) : Strip :=
  (List.range n).foldl (fun s k => chaseIter (k : Int) s) s

/-- `int bands = (int)NUM_LEDS / RAINBOW_LEN;` (line 229). -/
def bands : Int := Int.tdiv NUM_LEDS RAINBOW_LEN

/-- The palette index `dot / bands` computed by the rainbow sweep
(line 231, `leds[dot] = rainbow[dot / bands]`). -/
def rainbowLookupIdx (dot : Int) : Int := Int.tdiv dot bands

/-- The palette value the rainbow sweep assigns to slot `dot`, as a
fallible lookup: `none` means `rainbow[dot / bands]` reads outside the
palette. -/
def rainbowAssign (dot : Int) : Option CRGB :=
  rainbowPalette.get? (rainbowLookupIdx dot).toNat

/-- The strip state when `loop()` (lines 178–235) reaches the 100-iteration
chase loop at line 211, starting from power-up state: the composition of
lines 179–209. -/
def preChase : Strip :=
  warmupLoop third
    (fillMiddleOut NUM_LEDS CRGB.Black
      (fillTopToBottom NUM_LEDS CRGB.Red
        (equaliser NUM_LEDS CRGB.Red CRGB.White
          (equaliser 112 CRGB.Red CRGB.White
            (equaliser 75 CRGB.Red CRGB.White
              (equaliser 49 CRGB.Red CRGB.White
                (equaliser 37 CRGB.Red CRGB.White
                  (equaliser 37 CRGB.Red CRGB.White
                    (dotTopToBottom NUM_LEDS CRGB.Black CRGB.Black
                      (delayMs
                        (fillMiddleOut NUM_LEDS CRGB.Yellow
                          (dotOutsideIn NUM_LEDS CRGB.Magenta CRGB.Black
                            (dotOutsideIn NUM_LEDS CRGB.Magenta CRGB.Black
                              (dotOutsideIn NUM_LEDS CRGB.Magenta CRGB.Black
                                (dotOutsideIn NUM_LEDS CRGB.Magenta CRGB.Black
                                  (dotOutsideIn NUM_LEDS CRGB.Magenta CRGB.Black
                                    (dotOutsideIn NUM_LEDS CRGB.Magenta CRGB.Black
                                      initialStrip)))))))))))))))))

/-- Number of slots in group `g` (slots `3g, 3g+1, 3g+2`) holding the
chase's active colour (Cyan). -/
def activeCount (s : Strip) (g : Nat) : Nat :=
  (if s.leds (3 * (g : Int)) = CRGB.Cyan then 1 else 0) +
  (if s.leds (3 * (g : Int) + 1) = CRGB.Cyan then 1 else 0) +
  (if s.leds (3 * (g : Int) + 2) = CRGB.Cyan then 1 else 0)

/-- Number of slots in group `g` holding the off colour (Black). -/
def offCount (s : Strip) (g : Nat) : Nat :=
  (if s.leds (3 * (g : Int)) = CRGB.Black then 1 else 0) +
  (if s.leds (3 * (g : Int) + 1) = CRGB.Black then 1 else 0) +
  (if s.leds (3 * (g : Int) + 2) = CRGB.Black then 1 else 0)

set_option maxRecDepth 1000000

/-! ### Loop counter characterisations -/

lemma ascIdxs_of_nonpos {top : Int} (h : top ≤ 0) : ascIdxs top = [] := by
  simp [ascIdxs, Int.toNat_of_nonpos h]

lemma descIdxs_of_neg {top : Int} (h : top < 0) : descIdxs top = [] := by
  have h1 : (top + 1).toNat = 0 := Int.toNat_of_nonpos (by omega)
  simp [descIdxs, h1]

lemma mem_ascIdxs {i top : Int} : i ∈ ascIdxs top ↔ 0 ≤ i ∧ i < top := by
  simp only [ascIdxs, List.mem_map, List.mem_range, Int.ofNat_eq_natCast]
  constructor
  · rintro ⟨a, ha, rfl⟩
    omega
  · rintro ⟨h0, h1⟩
    exact ⟨i.toNat, by omega, by omega⟩

lemma mem_descIdxs {i top : Int} : i ∈ descIdxs top ↔ 0 ≤ i ∧ i ≤ top := by
  simp only [descIdxs, List.mem_reverse, List.mem_map, List.mem_range, Int.ofNat_eq_natCast]
  constructor
  · rintro ⟨a, ha, rfl⟩
    omega
  · rintro ⟨h0, h1⟩
    exact ⟨i.toNat, by omega, by omega⟩

lemma length_ascIdxs (top : Int) : (ascIdxs top).length = top.toNat := by
  simp [ascIdxs]

lemma tdiv_two_coe (n : Nat) : Int.tdiv (n : Int) 2 = ((n / 2 : Nat) : Int) := rfl

lemma tdiv_two_negSucc (m : Nat) : Int.tdiv (Int.negSucc m) 2 = -(((m + 1) / 2 : Nat) : Int) := rfl

lemma halfOf_nonneg_spec {top : Int} (h : 0 ≤ top) :
    0 ≤ halfOf top ∧ 2 * halfOf top ≤ top ∧ top ≤ 2 * halfOf top + 1 := by
  obtain ⟨n, rfl⟩ := Int.eq_ofNat_of_zero_le h
  rw [halfOf, tdiv_two_coe]
  omega

lemma halfOf_nonpos {top : Int} (h : top ≤ 0) : halfOf top ≤ 0 := by
  cases top with
  | ofNat n =>
    rw [Int.ofNat_eq_natCast] at h ⊢
    have hn : n = 0 := by omega
    subst hn
    decide
  | negSucc m =>
    rw [halfOf, tdiv_two_negSucc]
    omega

lemma halfOf_le_neg_two {top : Int} (h : top ≤ -2) : halfOf top ≤ -1 := by
  cases top with
  | ofNat n =>
    rw [Int.ofNat_eq_natCast] at h
    omega
  | negSucc m =>
    rw [Int.negSucc_eq] at h
    have hm : 1 ≤ m := by omega
    rw [halfOf, tdiv_two_negSucc]
    omega

/-! ### Single-dot loop characterisation -/

lemma dotStep_leds (fg bg : CRGB) (s : Strip) (dot i : Int) :
    (dotStep fg bg s dot).leds i = if i = dot then bg else s.leds i := by
  by_cases h : i = dot <;> simp [dotStep, delayMs, writeLed, fastledShow, h]

lemma runDot_leds (fg bg : CRGB) :
    ∀ (idxs : List Int) (s : Strip) (i : Int),
      (runDot fg bg idxs s).leds i = if i ∈ idxs then bg else s.leds i := by
  intro idxs
  induction idxs with
  | nil => intro s i; simp [runDot]
  | cons a t ih =>
    intro s i
    have hstep : runDot fg bg (a :: t) s = runDot fg bg t (dotStep fg bg s a) := rfl
    rw [hstep, ih]
    by_cases h1 : i ∈ t
    · simp [h1]
    · by_cases h2 : i = a <;> simp [h1, h2, dotStep_leds]

lemma runDot_shows (fg bg : CRGB) :
    ∀ (idxs : List Int) (s : Strip),
      (runDot fg bg idxs s).shows = s.shows + idxs.length := by
  intro idxs
  induction idxs with
  | nil => intro s; simp [runDot]
  | cons a t ih =>
    intro s
    have hstep : runDot fg bg (a :: t) s = runDot fg bg t (dotStep fg bg s a) := rfl
    rw [hstep, ih]
    simp [dotStep, delayMs, writeLed, fastledShow]
    omega

lemma runDot_writes (fg bg : CRGB) :
    ∀ (idxs : List Int) (s : Strip),
      (runDot fg bg idxs s).writes = s.writes ++ idxs.flatMap (fun i => [i, i]) := by
  intro idxs
  induction idxs with
  | nil => intro s; simp [runDot]
  | cons a t ih =>
    intro s
    have hstep : runDot fg bg (a :: t) s = runDot fg bg t (dotStep fg bg s a) := rfl
    rw [hstep, ih]
    simp [dotStep, delayMs, writeLed, fastledShow]

/-! ### Paired-dot loop characterisation -/

lemma pairStep_leds (h : Int) (fg bg : CRGB) (s : Strip) (dot i : Int) :
    (pairStep h fg bg s dot).leds i =
      if i = h - dot ∨ i = h + dot then bg else s.leds i := by
  by_cases h1 : i = h - dot <;> by_cases h2 : i = h + dot <;>
    simp [pairStep, delayMs, writeLed, fastledShow, h1, h2]

lemma runPair_leds (h : Int) (fg bg : CRGB) :
    ∀ (idxs : List Int) (s : Strip) (i : Int),
      (runPair h fg bg idxs s).leds i =
        if ∃ d ∈ idxs, i = h - d ∨ i = h + d then bg else s.leds i := by
  intro idxs
  induction idxs with
  | nil => intro s i; simp [runPair]
  | cons a t ih =>
    intro s i
    have hstep : runPair h fg bg (a :: t) s = runPair h fg bg t (pairStep h fg bg s a) := rfl
    rw [hstep, ih]
    by_cases h1 : ∃ d ∈ t, i = h - d ∨ i = h + d
    · rw [if_pos h1, if_pos]
      obtain ⟨d, hd, hi⟩ := h1
      exact ⟨d, List.mem_cons_of_mem a hd, hi⟩
    · rw [if_neg h1, pairStep_leds]
      by_cases h2 : i = h - a ∨ i = h + a
      · rw [if_pos h2, if_pos ⟨a, List.mem_cons_self a t, h2⟩]
      · rw [if_neg h2, if_neg]
        rintro ⟨d, hd, hi⟩
        rcases List.mem_cons.mp hd with rfl | hd'
        · exact h2 hi
        · exact h1 ⟨d, hd', hi⟩

lemma runPair_shows (h : Int) (fg bg : CRGB) :
    ∀ (idxs : List Int) (s : Strip),
      (runPair h fg bg idxs s).shows = s.shows + idxs.length := by
  intro idxs
  induction idxs with
  | nil => intro s; simp [runPair]
  | cons a t ih =>
    intro s
    have hstep : runPair h fg bg (a :: t) s = runPair h fg bg t (pairStep h fg bg s a) := rfl
    rw [hstep, ih]
    simp [pairStep, delayMs, writeLed, fastledShow]
    omega

lemma runPair_writes (h : Int) (fg bg : CRGB) :
    ∀ (idxs : List Int) (s : Strip),
      (runPair h fg bg idxs s).writes =
        s.writes ++ idxs.flatMap (fun d => [h + d, h - d, h + d, h - d]) := by
  intro idxs
  induction idxs with
  | nil => intro s; simp [runPair]
  | cons a t ih =>
    intro s
    have hstep : runPair h fg bg (a :: t) s = runPair h fg bg t (pairStep h fg bg s a) := rfl
    rw [hstep, ih]
    simp [pairStep, delayMs, writeLed, fastledShow]

/-! ### Chase inner loop characterisation -/

lemma chaseInner_succ (c : Int) (n : Nat) (s : Strip) :
    chaseInner c (n + 1) s = chaseStep c (chaseInner c n s) n := by
  simp [chaseInner, List.range_succ]

lemma chaseStep_leds (c : Int) (s : Strip) (d : Nat) (i : Int) :
    (chaseStep c s d).leds i =
      if i = 3 * (d : Int) + c - 1 then CRGB.Black
      else if i = 3 * (d : Int) + c then CRGB.Cyan
      else s.leds i := by
  by_cases h1 : i = 3 * (d : Int) + c - 1 <;> by_cases h2 : i = 3 * (d : Int) + c <;>
    simp [chaseStep, writeLed, h1, h2]

lemma chaseStep_shows (c : Int) (s : Strip) (d : Nat) :
    (chaseStep c s d).shows = s.shows := by
  simp [chaseStep, writeLed]

lemma chaseInner_shows (c : Int) (n : Nat) (s : Strip) :
    (chaseInner c n s).shows = s.shows := by
  induction n with
  | zero => rfl
  | succ n ih => rw [chaseInner_succ, chaseStep_shows, ih]

lemma chaseInner_leds_active (c : Int) (n : Nat) (s : Strip) (d : Nat) (hd : d < n) :
    (chaseInner c n s).leds (3 * (d : Int) + c) = CRGB.Cyan := by
  induction n with
  | zero => omega
  | succ n ih =>
    rw [chaseInner_succ, chaseStep_leds]
    by_cases h : d = n
    · subst h
      rw [if_neg (by omega), if_pos rfl]
    · rw [if_neg (by omega), if_neg (by omega)]
      exact ih (by omega)

lemma chaseInner_leds_off (c : Int) (n : Nat) (s : Strip) (d : Nat) (hd : d < n) :
    (chaseInner c n s).leds (3 * (d : Int) + c - 1) = CRGB.Black := by
  induction n with
  | zero => omega
  | succ n ih =>
    rw [chaseInner_succ, chaseStep_leds]
    by_cases h : d = n
    · subst h
      rw [if_pos rfl]
    · rw [if_neg (by omega), if_neg (by omega)]
      exact ih (by omega)

lemma chaseInner_leds_untouched (c : Int) (n : Nat) (s : Strip) (i : Int)
    (hi : ∀ e : Nat, e < n → i ≠ 3 * (e : Int) + c ∧ i ≠ 3 * (e : Int) + c - 1) :
    (chaseInner c n s).leds i = s.leds i := by
  induction n with
  | zero => rfl
  | succ n ih =>
    rw [chaseInner_succ, chaseStep_leds]
    have hn := hi n (by omega)
    rw [if_neg hn.2, if_neg hn.1]
    exact ih (fun e he => hi e (by omega))

lemma descIdxs_eq_cons {h : Int} (hh : 0 ≤ h) : descIdxs h = h :: (ascIdxs h).reverse := by
  have h1 : (h + 1).toNat = h.toNat + 1 := by omega
  simp only [descIdxs, ascIdxs, h1, List.range_succ, List.map_append, List.reverse_append]
  simp [Int.ofNat_eq_natCast, Int.toNat_of_nonneg hh]

/-! ### Claim theorems -/

/-- C1: the claim states that every buffer index produced internally by the
engine, at the extents the sequencer uses, lies within `[0, NUM_LEDS)`.
The code refutes it: `dotTopToBottom(NUM_LEDS, ...)` (line 189 and, via
`fillTopToBottom`, line 198) writes index 150, `dotOutsideIn(NUM_LEDS, ...)`
(line 179) writes index 150, and the chase loop (line 214, `count % 3 == 0`,
`dot == 0`) writes index `-1`; all are outside `[0, 150)`. -/
theorem c1_engine_writes_out_of_range :
    ((150 : Int) ∈ (dotTopToBottom NUM_LEDS CRGB.Black CRGB.Black initialStrip).writes) ∧
    ((150 : Int) ∈ (dotOutsideIn NUM_LEDS CRGB.Magenta CRGB.Black initialStrip).writes) ∧
    ((-1 : Int) ∈ (chaseIter 0 initialStrip).writes) ∧
    ¬ ((150 : Int) < NUM_LEDS) ∧
    ¬ (0 ≤ (-1 : Int)) := by decide

/-- C2: for every extent in `[0, NUM_LEDS]`, `dotBottomToTop(extent, fg, bg, d)`
performs exactly `extent` flushes, leaves every slot in `[0, extent)` equal to
`bg`, and leaves every slot at index `≥ extent` unchanged. -/
theorem c2_moveBottomToTop_spec (top : Int) (h0 : 0 ≤ top) (hN : top ≤ NUM_LEDS)
    (fg bg : CRGB) (s : Strip) :
    (dotBottomToTop top fg bg s).shows = s.shows + top.toNat ∧
    (∀ i : Int, 0 ≤ i → i < top → (dotBottomToTop top fg bg s).leds i = bg) ∧
    (∀ i : Int, top ≤ i → (dotBottomToTop top fg bg s).leds i = s.leds i) := by
  refine ⟨?_, ?_, ?_⟩
  · rw [dotBottomToTop, runDot_shows, length_ascIdxs]
  · intro i h1 h2
    rw [dotBottomToTop, runDot_leds, if_pos (mem_ascIdxs.mpr ⟨h1, h2⟩)]
  · intro i h1
    rw [dotBottomToTop, runDot_leds, if_neg]
    intro hmem
    have := mem_ascIdxs.mp hmem
    omega

/-- Witness for C2 at `extent = 3`. -/
theorem c2_witness :
    (dotBottomToTop 3 CRGB.Red CRGB.Blue initialStrip).shows = initialStrip.shows + (3 : Int).toNat ∧
    (dotBottomToTop 3 CRGB.Red CRGB.Blue initialStrip).leds 1 = CRGB.Blue ∧
    (dotBottomToTop 3 CRGB.Red CRGB.Blue initialStrip).leds 5 = initialStrip.leds 5 :=
  ⟨(c2_moveBottomToTop_spec 3 (by decide) (by decide) CRGB.Red CRGB.Blue initialStrip).1,
   (c2_moveBottomToTop_spec 3 (by decide) (by decide) CRGB.Red CRGB.Blue initialStrip).2.1 1
     (by decide) (by decide),
   (c2_moveBottomToTop_spec 3 (by decide) (by decide) CRGB.Red CRGB.Blue initialStrip).2.2 5
     (by decide)⟩

/-- C3 counterexample: at `extent = 2`, `dotOutsideIn` touches the pairs
`[(2,0), (1,1)]` while `dotMiddleOut` touches only `[(1,1)]`, so the pair
sets are not equal (reversed or not), and the final buffers differ at
slot 0. -/
theorem c3_counterexample :
    outsideInPairs 2 ≠ (middleOutPairs 2).reverse ∧
    (dotOutsideIn 2 CRGB.Red CRGB.Red initialStrip).leds 0 ≠
      (dotMiddleOut 2 CRGB.Red CRGB.Red initialStrip).leds 0 := by decide

/-- C3 amended: for extents in `[0, NUM_LEDS]`, `dotOutsideIn`'s pair
sequence is the extra pair `(2*half, 0)` followed by the reverse of
`dotMiddleOut`'s pair sequence, and the two final buffers agree at every
index other than `0` and `2*half` (which only `dotOutsideIn` writes). -/
theorem c3_outsideIn_vs_middleOut (top : Int) (h0 : 0 ≤ top) (hN : top ≤ NUM_LEDS)
    (fg bg : CRGB) (s : Strip) :
    outsideInPairs top = (2 * halfOf top, 0) :: (middleOutPairs top).reverse ∧
    ∀ i : Int, i ≠ 0 → i ≠ 2 * halfOf top →
      (dotOutsideIn top fg bg s).leds i = (dotMiddleOut top fg bg s).leds i := by
  have hh : 0 ≤ halfOf top := (halfOf_nonneg_spec h0).1
  constructor
  · simp only [outsideInPairs, middleOutPairs, descIdxs_eq_cons hh, List.map_cons,
      List.map_reverse]
    congr 1
    simp [two_mul]
  · intro i hi0 hi2
    rw [dotOutsideIn, dotMiddleOut, runPair_leds, runPair_leds]
    refine if_congr ?_ rfl rfl
    constructor
    · rintro ⟨d, hd, hi⟩
      have hd' := mem_descIdxs.mp hd
      refine ⟨d, mem_ascIdxs.mpr ⟨hd'.1, ?_⟩, hi⟩
      rcases hi with hi | hi <;> omega
    · rintro ⟨d, hd, hi⟩
      have hd' := mem_ascIdxs.mp hd
      exact ⟨d, mem_descIdxs.mpr ⟨hd'.1, by omega⟩, hi⟩

/-- Witness for the amended C3 at `extent = 4`, slot 3. -/
theorem c3_witness :
    outsideInPairs 4 = (2 * halfOf 4, 0) :: (middleOutPairs 4).reverse ∧
    (dotOutsideIn 4 CRGB.Red CRGB.Blue initialStrip).leds 3 =
      (dotMiddleOut 4 CRGB.Red CRGB.Blue initialStrip).leds 3 :=
  ⟨(c3_outsideIn_vs_middleOut 4 (by decide) (by decide) CRGB.Red CRGB.Blue initialStrip).1,
   (c3_outsideIn_vs_middleOut 4 (by decide) (by decide) CRGB.Red CRGB.Blue initialStrip).2 3
     (by decide) (by decide)⟩

/-- C4 counterexample: at `top = 0` the claim's biconditional fails —
`equaliser` writes the peak colour to index `top - 1 = -1` unconditionally
(line 149), so that slot equals the peak even though `top ≥ 1` is false. -/
theorem c4_counterexample :
    ¬ (((equaliser 0 CRGB.Red CRGB.White initialStrip).leds (0 - 1) = CRGB.Red) ↔
        (1 : Int) ≤ 0) := by decide

/-- C4 amended: for `top` in `[1, NUM_LEDS]` (the claim's `[0, N]` fails at
`top = 0`): after `equaliser(top, peak, bar, d)`, slot `top-1` equals `peak`,
every slot in `[0, top-2)` equals black, and no slot above `top-1` changes. -/
theorem c4_equaliser_spec (top : Int) (h1 : 1 ≤ top) (hN : top ≤ NUM_LEDS)
    (peak bar : CRGB) (s : Strip) :
    (equaliser top peak bar s).leds (top - 1) = peak ∧
    (∀ i : Int, 0 ≤ i → i < top - 2 → (equaliser top peak bar s).leds i = CRGB.Black) ∧
    (∀ i : Int, top - 1 < i → (equaliser top peak bar s).leds i = s.leds i) := by
  have key : ∀ i : Int, (equaliser top peak bar s).leds i =
      if 0 ≤ i ∧ i ≤ top - 2 then CRGB.Black
      else if i = top - 1 then peak
      else if 0 ≤ i ∧ i < top then bar
      else s.leds i := by
    intro i
    rw [equaliser, fillTopToBottom, dotTopToBottom, runDot_leds]
    simp only [writeLed, fillBottomToTop, dotBottomToTop, runDot_leds, mem_descIdxs,
      mem_ascIdxs]
  refine ⟨?_, ?_, ?_⟩
  · rw [key, if_neg (by omega), if_pos rfl]
  · intro i hi1 hi2
    rw [key, if_pos ⟨hi1, by omega⟩]
  · intro i hi
    rw [key, if_neg (by omega), if_neg (by omega), if_neg (by omega)]

/-- Witness for the amended C4 at `top = 3`. -/
theorem c4_witness :
    (equaliser 3 CRGB.Red CRGB.White initialStrip).leds (3 - 1) = CRGB.Red ∧
    (equaliser 3 CRGB.Red CRGB.White initialStrip).leds 0 = CRGB.Black ∧
    (equaliser 3 CRGB.Red CRGB.White initialStrip).leds 5 = initialStrip.leds 5 :=
  ⟨(c4_equaliser_spec 3 (by decide) (by decide) CRGB.Red CRGB.White initialStrip).1,
   (c4_equaliser_spec 3 (by decide) (by decide) CRGB.Red CRGB.White initialStrip).2.1 0
     (by decide) (by decide),
   (c4_equaliser_spec 3 (by decide) (by decide) CRGB.Red CRGB.White initialStrip).2.2 5
     (by decide)⟩

/-- C5 counterexample: at extent 0 `dotTopToBottom` performs a step (its
loop `for(dot = top; dot >= 0; dot--)` runs once), flushing once, and
`dotOutsideIn` does the same at extent `-1` — the claim says both perform
zero steps for every extent that is 0 or negative. -/
theorem c5_counterexample :
    (dotTopToBottom 0 CRGB.Red CRGB.Black initialStrip).shows = 1 ∧
    (dotOutsideIn (-1) CRGB.Red CRGB.Black initialStrip).shows = 1 := by decide

/-- C5 amended: `dotBottomToTop` and `dotMiddleOut` perform zero steps for
every extent `≤ 0`; `dotTopToBottom` performs zero steps only for extent
`< 0` and `dotOutsideIn` only for extent `≤ -2`; at the remaining
non-positive extents (`0` for `dotTopToBottom`, `0` and `-1` for
`dotOutsideIn`) each performs exactly one step that writes only slot 0 —
so no step writes an out-of-range slot. -/
theorem c5_nonpositive_extent (top : Int) (fg bg : CRGB) (s : Strip) :
    (top ≤ 0 → dotBottomToTop top fg bg s = s) ∧
    (top ≤ 0 → dotMiddleOut top fg bg s = s) ∧
    (top < 0 → dotTopToBottom top fg bg s = s) ∧
    (top ≤ -2 → dotOutsideIn top fg bg s = s) ∧
    (top = 0 →
      (dotTopToBottom top fg bg s).shows = s.shows + 1 ∧
      (dotTopToBottom top fg bg s).writes = s.writes ++ [0, 0] ∧
      (dotTopToBottom top fg bg s).leds 0 = bg) ∧
    ((top = 0 ∨ top = -1) →
      (dotOutsideIn top fg bg s).shows = s.shows + 1 ∧
      (dotOutsideIn top fg bg s).writes = s.writes ++ [0, 0, 0, 0] ∧
      (dotOutsideIn top fg bg s).leds 0 = bg) := by
  refine ⟨?_, ?_, ?_, ?_, ?_, ?_⟩
  · intro h
    rw [dotBottomToTop, ascIdxs_of_nonpos h]
    rfl
  · intro h
    rw [dotMiddleOut, ascIdxs_of_nonpos (halfOf_nonpos h)]
    rfl
  · intro h
    rw [dotTopToBottom, descIdxs_of_neg h]
    rfl
  · intro h
    have hhalf := halfOf_le_neg_two h
    rw [dotOutsideIn, descIdxs_of_neg (by omega)]
    rfl
  · rintro rfl
    have hd : descIdxs 0 = [0] := by decide
    rw [dotTopToBottom, hd]
    refine ⟨?_, ?_, ?_⟩ <;>
      simp [runDot, dotStep, delayMs, writeLed, fastledShow, List.append_assoc]
  · intro h
    have hh : halfOf top = 0 := by rcases h with rfl | rfl <;> decide
    have hd : descIdxs (halfOf top) = [0] := by rw [hh]; decide
    rw [dotOutsideIn, hd, hh]
    refine ⟨?_, ?_, ?_⟩ <;>
      simp [runPair, pairStep, delayMs, writeLed, fastledShow, List.append_assoc]

/-- Witness for the amended C5: identity at extent `-3`, and the single
step of `dotTopToBottom` at extent `0`. -/
theorem c5_witness :
    dotBottomToTop (-3) CRGB.Red CRGB.Black initialStrip = initialStrip ∧
    (dotTopToBottom 0 CRGB.Red CRGB.Black initialStrip).shows = initialStrip.shows + 1 :=
  ⟨(c5_nonpositive_extent (-3) CRGB.Red CRGB.Black initialStrip).1 (by decide),
   ((c5_nonpositive_extent 0 CRGB.Red CRGB.Black initialStrip).2.2.2.2.1 rfl).1⟩

/-- C6 counterexample: in the 100-iteration chase loop run from the state
the program reaches at line 211, after the outer iteration with
`count = 1` group 0 holds `(Black, Cyan, Black)` — one active slot, not
two — so not every outer iteration leaves every 3-slot group with exactly
two active slots and one off slot. -/
theorem c6_counterexample :
    ¬ (∀ k : Nat, k < 100 → ∀ g : Nat, g < third →
        activeCount (chaseLoopN (k + 1) preChase) g = 2 ∧
        offCount (chaseLoopN (k + 1) preChase) g = 1) := by
  intro hcl
  have h1 : activeCount (chaseLoopN 2 preChase) 0 = 2 := (hcl 1 (by omega) 0 (by decide)).1
  have h2 : activeCount (chaseLoopN 2 preChase) 0 = 1 := by decide
  omega

/-- C6 amended: one outer chase iteration at counter `count ≥ 0` net-writes,
for each group `d < third`, slot `3d + count % 3` to the active colour and
slot `3d + count % 3 - 1` to off (the intermediate active write to
`3d + count % 3 - 1` is immediately overwritten, line 214 then 215),
leaves every other slot unchanged, and flushes exactly once. -/
theorem c6_chase_iteration (s : Strip) (count : Int) (hc : 0 ≤ count)
    (d : Nat) (hd : d < third) :
    (chaseIter count s).leds (3 * (d : Int) + Int.emod count 3) = CRGB.Cyan ∧
    (chaseIter count s).leds (3 * (d : Int) + Int.emod count 3 - 1) = CRGB.Black ∧
    (chaseIter count s).shows = s.shows + 1 ∧
    (∀ i : Int,
      (∀ e : Nat, e < third →
        i ≠ 3 * (e : Int) + Int.emod count 3 ∧ i ≠ 3 * (e : Int) + Int.emod count 3 - 1) →
      (chaseIter count s).leds i = s.leds i) := by
  have hleds : ∀ j : Int,
      (chaseIter count s).leds j = (chaseInner (Int.emod count 3) third s).leds j :=
    fun j => rfl
  refine ⟨?_, ?_, ?_, ?_⟩
  · rw [hleds]
    exact chaseInner_leds_active _ _ _ _ hd
  · rw [hleds]
    exact chaseInner_leds_off _ _ _ _ hd
  · simp [chaseIter, delayMs, fastledShow, chaseInner_shows]
  · intro i hi
    rw [hleds]
    exact chaseInner_leds_untouched _ _ _ _ hi

/-- Witness for the amended C6 at `count = 0`, group 0, untouched slot 7. -/
theorem c6_witness :
    (chaseIter 0 initialStrip).leds (3 * ((0 : Nat) : Int) + Int.emod 0 3) = CRGB.Cyan ∧
    (chaseIter 0 initialStrip).shows = initialStrip.shows + 1 ∧
    (chaseIter 0 initialStrip).leds 7 = initialStrip.leds 7 :=
  ⟨(c6_chase_iteration initialStrip 0 (by decide) 0 (by decide)).1,
   (c6_chase_iteration initialStrip 0 (by decide) 0 (by decide)).2.2.1,
   (c6_chase_iteration initialStrip 0 (by decide) 0 (by decide)).2.2.2 7 (by decide)⟩

/-- C7: refuted on the code: for the remainder slots 147, 148, 149 the
rainbow sweep computes palette index `dot / bands = 7`, which is not
within the palette's bounds (`RAINBOW_LEN = 7`, valid indices 0–6), so
`rainbow[7]` is an out-of-range read rather than the last palette entry. -/
theorem c7_rainbow_remainder_lookup :
    rainbowLookupIdx 147 = 7 ∧ rainbowLookupIdx 148 = 7 ∧ rainbowLookupIdx 149 = 7 ∧
    ¬ (rainbowLookupIdx 147 < RAINBOW_LEN) ∧
    rainbowAssign 147 = none ∧ rainbowAssign 148 = none ∧ rainbowAssign 149 = none := by
  decide

/-- C8: with `NUM_LEDS = 150` and `RAINBOW_LEN = 7`: `bands = 21`, slot 0
and slot 20 get `palette[0]`, slot 21 gets `palette[1]`, and for every
`k` in `[0, 6]` the slot at `k * bands` gets `palette[k]`. -/
theorem c8_rainbow_band_boundaries :
    bands = 21 ∧
    rainbowAssign 0 = rainbowPalette.get? 0 ∧
    rainbowAssign 20 = rainbowPalette.get? 0 ∧
    rainbowAssign 21 = rainbowPalette.get? 1 ∧
    rainbowAssign (0 * bands) = rainbowPalette.get? 0 ∧
    rainbowAssign (1 * bands) = rainbowPalette.get? 1 ∧
    rainbowAssign (2 * bands) = rainbowPalette.get? 2 ∧
    rainbowAssign (3 * bands) = rainbowPalette.get? 3 ∧
    rainbowAssign (4 * bands) = rainbowPalette.get? 4 ∧
    rainbowAssign (5 * bands) = rainbowPalette.get? 5 ∧
    rainbowAssign (6 * bands) = rainbowPalette.get? 6 := by decide

/-- C9: for every extent in `[0, NUM_LEDS]` and colour `c`,
`fillBottomToTop(extent, c, d)` followed by `fillTopToBottom(extent, c, d)`
leaves the whole affected range `[0, extent]` uniformly equal to `c` and
every other slot unchanged. -/
theorem c9_fill_composition (top : Int) (h0 : 0 ≤ top) (hN : top ≤ NUM_LEDS)
    (c : CRGB) (s : Strip) :
    (∀ i : Int, 0 ≤ i → i ≤ top →
      (fillTopToBottom top c (fillBottomToTop top c s)).leds i = c) ∧
    (∀ i : Int, i < 0 ∨ top < i →
      (fillTopToBottom top c (fillBottomToTop top c s)).leds i = s.leds i) := by
  constructor
  · intro i h1 h2
    rw [fillTopToBottom, dotTopToBottom, runDot_leds, if_pos (mem_descIdxs.mpr ⟨h1, h2⟩)]
  · intro i hi
    have hdm : i ∉ descIdxs top := by
      intro hmem
      have := mem_descIdxs.mp hmem
      omega
    have ham : i ∉ ascIdxs top := by
      intro hmem
      have := mem_ascIdxs.mp hmem
      omega
    rw [fillTopToBottom, dotTopToBottom, runDot_leds, if_neg hdm, fillBottomToTop,
      dotBottomToTop, runDot_leds, if_neg ham]

/-- Witness for C9 at `extent = 2`. -/
theorem c9_witness :
    (fillTopToBottom 2 CRGB.Red (fillBottomToTop 2 CRGB.Red initialStrip)).leds 1 = CRGB.Red ∧
    (fillTopToBottom 2 CRGB.Red (fillBottomToTop 2 CRGB.Red initialStrip)).leds 5 =
      initialStrip.leds 5 :=
  ⟨(c9_fill_composition 2 (by decide) (by decide) CRGB.Red initialStrip).1 1
     (by decide) (by decide),
   (c9_fill_composition 2 (by decide) (by decide) CRGB.Red initialStrip).2 5
     (Or.inr (by decide))⟩

/-- C10: for every extent in `[0, NUM_LEDS]`, every index `dotMiddleOut`
writes lies within `[0, NUM_LEDS)` and is at most `2*half - 1`, which is
strictly less than the extent; when `half ≥ 1` the bound `2*half - 1` is
itself written. -/
theorem c10_middleOut_bounds (top : Int) (h0 : 0 ≤ top) (hN : top ≤ NUM_LEDS) :
    (∀ i ∈ middleOutWrites top, 0 ≤ i ∧ i < NUM_LEDS ∧ i ≤ 2 * halfOf top - 1) ∧
    2 * halfOf top - 1 < top ∧
    (1 ≤ halfOf top → (2 * halfOf top - 1) ∈ middleOutWrites top) := by
  obtain ⟨hh0, hh1, hh2⟩ := halfOf_nonneg_spec h0
  simp only [NUM_LEDS] at hN ⊢
  refine ⟨?_, by omega, ?_⟩
  · intro i hi
    simp only [middleOutWrites, List.mem_flatMap, List.mem_cons,
      List.not_mem_nil, or_false] at hi
    obtain ⟨d, hd, hid⟩ := hi
    have hd' := mem_ascIdxs.mp hd
    rcases hid with rfl | rfl | rfl | rfl <;>
      refine ⟨by omega, by omega, by omega⟩
  · intro h1
    simp only [middleOutWrites, List.mem_flatMap]
    refine ⟨halfOf top - 1, mem_ascIdxs.mpr ⟨by omega, by omega⟩, ?_⟩
    simp only [List.mem_cons, List.not_mem_nil, or_false]
    left
    omega

/-- Witness for C10 at `extent = 5`. -/
theorem c10_witness :
    2 * halfOf 5 - 1 < 5 ∧ (2 * halfOf 5 - 1) ∈ middleOutWrites 5 :=
  ⟨(c10_middleOut_bounds 5 (by decide) (by decide)).2.1,
   (c10_middleOut_bounds 5 (by decide) (by decide)).2.2 (by decide)⟩
